import Mathlib

/-!
Shallow embedding of `src/azurekeyvault-flexvolume/oauth.go`
(package `main` of the kubernetes-keyvault-flexvol repository).

The file models the credential-acquisition engine:
`ParseAzureEnvironment`, `GetServicePrincipalToken`, `GetManagementToken`,
`GetKeyvaultToken`, and `AuthGrantType`, together with the slice of the
vendored `go-autorest` library that those functions touch
(`azure.Environment` values, `azure.EnvironmentFromName`,
`adal.NewOAuthConfig`, the two `adal.NewServicePrincipalToken*`
constructors, and `autorest.NewBearerAuthorizer`).

External effects are made explicit:
  * the outcome of `adal.NewOAuthConfig` (library URL parsing) and of the
    single outbound HTTP call to the NMI broker are inputs, collected in
    `NMIWorld`;
  * the number of outbound network calls performed and every diagnostic
    line written (both `glog` lines and the two `fmt.Printf` calls) are
    outputs, collected next to the Go return value;
  * a Go runtime panic is a distinct outcome (`GoOutcome.panic`), never an
    error value.
-/

/-- The Go `OAuthGrantType` (oauth.go lines 30-38). -/
inductive OAuthGrantType where
  | OAuthGrantTypeServicePrincipal
  | OAuthGrantTypeDeviceFlow
deriving DecidableEq, Repr

/-- oauth.go lines 74-76: `AuthGrantType` takes no input and returns the
service-principal grant type unconditionally. -/
def AuthGrantType : OAuthGrantType := .OAuthGrantTypeServicePrincipal

/-- The part of `adal.Token` that `json.Unmarshal` fills from the broker
body (all fields are strings in the vendored library version). -/
structure Token where
  accessToken : String
  refreshToken : String
  expiresIn : String
  expiresOn : String
  notBefore : String
  resource : String
  tokenType : String
deriving DecidableEq, Repr

/-- The zero value of `adal.Token`: what `json.Unmarshal` leaves when the
`token` key is absent or empty in the JSON body sent by the broker. -/
def zeroToken : Token :=
  { accessToken := "", refreshToken := "", expiresIn := "", expiresOn := ""
    notBefore := "", resource := "", tokenType := "" }

/-- oauth.go lines 78-81: the decoded NMI broker response. -/
structure NMIResponse where
  token : Token
  clientID : String
deriving DecidableEq, Repr

/-- The slice of `azure.Environment` that oauth.go reads
(`ActiveDirectoryEndpoint`, `ResourceManagerEndpoint`, `KeyVaultEndpoint`);
the remaining endpoint fields of the Go struct are never read by this
code and are omitted. -/
structure Environment where
  Name : String
  ActiveDirectoryEndpoint : String
  ResourceManagerEndpoint : String
  KeyVaultEndpoint : String
deriving DecidableEq, Repr

/-- Vendored `azure.PublicCloud` (go-autorest environments table). -/
def PublicCloud : Environment :=
  { Name := "AzurePublicCloud"
    ActiveDirectoryEndpoint := "https://login.microsoftonline.com/"
    ResourceManagerEndpoint := "https://management.azure.com/"
    KeyVaultEndpoint := "https://vault.azure.net/" }

/-- Vendored `azure.ChinaCloud`. -/
def ChinaCloud : Environment :=
  { Name := "AzureChinaCloud"
    ActiveDirectoryEndpoint := "https://login.chinacloudapi.cn/"
    ResourceManagerEndpoint := "https://management.chinacloudapi.cn/"
    KeyVaultEndpoint := "https://vault.azure.cn/" }

/-- Vendored `azure.GermanCloud`. -/
def GermanCloud : Environment :=
  { Name := "AzureGermanCloud"
    ActiveDirectoryEndpoint := "https://login.microsoftonline.de/"
    ResourceManagerEndpoint := "https://management.microsoftazure.de/"
    KeyVaultEndpoint := "https://vault.microsoftazure.de/" }

/-- Vendored `azure.USGovernmentCloud`. -/
def USGovernmentCloud : Environment :=
  { Name := "AzureUSGovernmentCloud"
    ActiveDirectoryEndpoint := "https://login.microsoftonline.us/"
    ResourceManagerEndpoint := "https://management.usgovcloudapi.net/"
    KeyVaultEndpoint := "https://vault.usgovcloudapi.net/" }

/-- The zero value of `azure.Environment`: what a failed map lookup in
`azure.EnvironmentFromName` leaves in `env` before the error return. -/
def zeroEnvironment : Environment :=
  { Name := "", ActiveDirectoryEndpoint := ""
    ResourceManagerEndpoint := "", KeyVaultEndpoint := "" }

/-- The Go error values this code can return, compared structurally.
Each constructor corresponds to one `return nil, err` site; `message`
below renders the exact `fmt.Errorf` text. -/
inductive GoErr where
  /-- oauth.go line 125: wraps the library error from `adal.NewOAuthConfig`. -/
  | oauthConfigError (libMsg : String)
  /-- oauth.go lines 134-135 and 140-141: `http.NewRequest` / `client.Do` failure, returned as-is. -/
  | transportError (msg : String)
  /-- oauth.go lines 147-148 and 152-153: `ioutil.ReadAll` or `json.Unmarshal` failure, returned as-is. -/
  | bodyError (msg : String)
  /-- oauth.go line 163. -/
  | nmiIncompleteResponse
  /-- oauth.go line 173. -/
  | nmiStatusError (statusCode : Nat)
  /-- oauth.go line 186. -/
  | noCredentials (clientID : String)
  /-- vendored `azure.EnvironmentFromName` on an unknown (already upper-cased) name. -/
  | unknownEnvironment (upperName : String)
deriving DecidableEq, Repr

/-- The `err.Error()` text of each `GoErr`, following the `fmt.Errorf`
format strings of the source (`%d` renders decimal, `%q` renders the name
in double quotes). -/
def GoErr.message : GoErr → String
  | .oauthConfigError m => "creating the OAuth config: " ++ m
  | .transportError m => m
  | .bodyError m => m
  | .nmiIncompleteResponse => "nmi did not return expected values in response: token and clientid"
  | .nmiStatusError c => "nmi response failed with status code: " ++ toString c
  | .noCredentials id => "No credentials provided for AAD application " ++ id
  | .unknownEnvironment n =>
      "autorest/azure: There is no cloud environment matching the name \"" ++ n ++ "\""

/-- Outcome of one Go call: a normal return value, a normal error return
(the Go `return nil, err`), or a runtime panic (which is not a value at
all — it aborts the goroutine). -/
inductive GoOutcome (α : Type) where
  | ok (value : α)
  | err (e : GoErr)
  | panic (msg : String)
deriving DecidableEq, Repr

/-- Holds exactly on the `panic` outcome. -/
def GoOutcome.isPanic {α : Type} : GoOutcome α → Bool
  | .panic _ => true
  | _ => false

/-- The Go `strings.ToUpper`, restricted to the ASCII uppercasing that is
relevant here (the table keys in `azure.EnvironmentFromName` are ASCII). -/
def goToUpper (s : String) : String := String.mk (s.data.map Char.toUpper)

/-- Vendored `azure.EnvironmentFromName`: upper-case the name, then look
it up in the fixed four-entry environments map; a miss returns the zero
`Environment` together with the error.  The Go map lookup over the four
distinct keys is written as an if-chain. -/
def EnvironmentFromName (name : String) : Environment × Option GoErr :=
  let upper := goToUpper name
  if upper == "AZURECHINACLOUD" then (ChinaCloud, none)
  else if upper == "AZUREGERMANCLOUD" then (GermanCloud, none)
  else if upper == "AZUREPUBLICCLOUD" then (PublicCloud, none)
  else if upper == "AZUREUSGOVERNMENTCLOUD" then (USGovernmentCloud, none)
  else (zeroEnvironment, some (.unknownEnvironment upper))

/-- oauth.go lines 189-199: empty cloud name selects `azure.PublicCloud`;
otherwise defer to `azure.EnvironmentFromName`.  The Go function returns
`&env, err`; the pair here is (pointee, error). -/
def ParseAzureEnvironment (cloudName : String) : Environment × Option GoErr :=
  if cloudName == "" then (PublicCloud, none)
  else EnvironmentFromName cloudName

/-- oauth.go lines 107-110, as a function of the endpoint string:
```
if '/' == kvEndPoint[len(kvEndPoint)-1] {
    kvEndPoint = kvEndPoint[:len(kvEndPoint)-1]
}
```
Go indexes the LAST BYTE; on the empty string the index is -1 and the
expression panics with an index-out-of-range runtime error, modelled as
`none`.  On valid UTF-8 the last byte is `'/'` exactly when the last
character is `'/'`, and the byte slice `[:len-1]` then drops that
character, so the character-level model below agrees with the byte-level
code. -/
def goStripTrailingSlash (s : String) : Option String :=
  match s.data.reverse with
  | [] => none
  | c :: rest => if c = '/' then some (String.mk rest.reverse) else some s

/-- The result of `adal.NewOAuthConfig`: the library derives the
authorize/token/device-code URLs from the authority endpoint and the
tenant; only those two inputs matter to this code, so the model stores
them. -/
structure OAuthConfig where
  activeDirectoryEndpoint : String
  tenantID : String
deriving DecidableEq, Repr

/-- What the two `adal` service-principal-token constructors store.  Both
are pure construction in the vendored library: no network traffic happens
until the credential is first refreshed/used. -/
inductive ServicePrincipalToken where
  /-- Vendored `adal.NewServicePrincipalTokenFromManualToken`: a credential built
  directly from broker-supplied token material. -/
  | manual (cfg : OAuthConfig) (clientID : String) (resource : String) (token : Token)
  /-- Vendored `adal.NewServicePrincipalToken`: a self-refreshing client-credentials
  credential; the OAuth exchange carrying `resource` happens lazily. -/
  | clientCredentials (cfg : OAuthConfig) (clientID : String) (secret : String) (resource : String)
deriving DecidableEq, Repr

/-- The client identifier a credential was constructed with. -/
def ServicePrincipalToken.clientID : ServicePrincipalToken → String
  | .manual _ c _ _ => c
  | .clientCredentials _ c _ _ => c

/-- The resource URI a credential was constructed with (the `resource`
parameter its OAuth exchange will carry). -/
def ServicePrincipalToken.resource : ServicePrincipalToken → String
  | .manual _ _ r _ => r
  | .clientCredentials _ _ _ r => r

/-- Vendored `autorest.NewBearerAuthorizer(spt)`: pure wrapping, no failure path. -/
structure Authorizer where
  tokenProvider : ServicePrincipalToken
deriving DecidableEq, Repr

/-- oauth.go line 95 / 115: `autorest.NewBearerAuthorizer`. -/
def NewBearerAuthorizer (spt : ServicePrincipalToken) : Authorizer := ⟨spt⟩

/-- An `http.Response` from the NMI broker as this code consumes it: the
status code, and the joint outcome of `ioutil.ReadAll` + `json.Unmarshal`
on its body (`Except.error` covers a read failure or malformed JSON;
`Except.ok` is the decoded `NMIResponse`, with Go zero values for absent
fields). -/
structure HttpResponse where
  statusCode : Nat
  body : Except String NMIResponse

/-- The behavior of the external world during one
`GetServicePrincipalToken` call: the outcome of the vendored
`adal.NewOAuthConfig` URL parsing, and the outcome of the one outbound
HTTP round trip to the NMI broker (`http.NewRequest` + `client.Do`),
consulted only on the delegated-identity path. -/
structure NMIWorld where
  oauthConfigErr : Option String
  httpResult : Except String HttpResponse

/-- oauth.go line 21. -/
def nmiendpoint : String := "http://localhost:2579/host/token/"

/-- oauth.go line 131: the URL of the outbound NMI request,
`fmt.Sprintf("%s?resource=%s", nmiendpoint, resource)`. -/
def nmiRequestURL (resource : String) : String :=
  nmiendpoint ++ "?resource=" ++ resource

/-- The full observable result of one Go call: the returned
(value, error) pair — `GoOutcome.ok v` is the Go `return v, nil`,
`GoOutcome.err e` is `return nil, e` — plus the number of outbound
network calls performed and the diagnostic lines emitted (each `glog`
line and each `fmt.Printf` payload, in order). -/
structure GoRun (α : Type) where
  result : GoOutcome α
  networkCalls : Nat
  printed : List String
deriving DecidableEq, Repr

/-- oauth.go lines 121-187, `GetServicePrincipalToken`.  Control flow is
translated branch for branch; `w` supplies the outcomes of the external
calls.  Note on line 162: the Go guard is
`if &token == nil || clientID == ""`, and `&token` — the address of a
local variable — is never nil in Go, so the first disjunct is the
constant `false` kept here verbatim. -/
def GetServicePrincipalToken (tenantId : String) (env : Environment) (resource : String)
    (useIntegratedIdentity : Bool) (aADClientSecret : String) (aADClientID : String)
    (podname : String) (podns : String) (w : NMIWorld) : GoRun ServicePrincipalToken :=
  match w.oauthConfigErr with
  | some e => { result := .err (.oauthConfigError e), networkCalls := 0, printed := [] }
  | none =>
    let oauthConfig : OAuthConfig := ⟨env.ActiveDirectoryEndpoint, tenantId⟩
    if useIntegratedIdentity then
      let log1 := "azure: using managed identity extension to retrieve access token"
      -- request to `nmiRequestURL resource` with headers podns / podname;
      -- `w.httpResult` is what `client.Do` brings back
      match w.httpResult with
      | .error e => { result := .err (.transportError e), networkCalls := 1, printed := [log1] }
      | .ok resp =>
        if resp.statusCode == 200 then
          match resp.body with
          | .error e => { result := .err (.bodyError e), networkCalls := 1, printed := [log1] }
          | .ok nmiResp =>
            let p1 := "\n accesstoken: " ++ nmiResp.token.accessToken ++ "\n"
            let p2 := "\n clientid: " ++ nmiResp.clientID ++ "\n"
            let token := nmiResp.token
            let clientID := nmiResp.clientID
            if false || clientID == "" then
              { result := .err .nmiIncompleteResponse, networkCalls := 1, printed := [log1, p1, p2] }
            else
              { result := .ok (.manual oauthConfig clientID resource token)
                networkCalls := 1, printed := [log1, p1, p2] }
        else
          { result := .err (.nmiStatusError resp.statusCode), networkCalls := 1, printed := [log1] }
    else
      if aADClientSecret.length > 0 then
        { result := .ok (.clientCredentials oauthConfig aADClientID aADClientSecret resource)
          networkCalls := 0
          printed := ["azure: using client_id+client_secret to retrieve access token"] }
      else
        { result := .err (.noCredentials aADClientID), networkCalls := 0, printed := [] }

/-- oauth.go lines 83-98, `GetManagementToken`: resolve the environment,
acquire a token for the resource-manager endpoint, wrap it in a bearer
authorizer.  `grantType` is accepted and never read, as in the source. -/
def GetManagementToken (grantType : OAuthGrantType) (cloudName : String) (tenantId : String)
    (useIntegratedIdentity : Bool) (aADClientSecret : String) (aADClientID : String)
    (podname : String) (podns : String) (w : NMIWorld) : GoRun Authorizer :=
  match ParseAzureEnvironment cloudName with
  | (_, some e) => { result := .err e, networkCalls := 0, printed := [] }
  | (env, none) =>
    let rmEndPoint := env.ResourceManagerEndpoint
    let run := GetServicePrincipalToken tenantId env rmEndPoint useIntegratedIdentity
      aADClientSecret aADClientID podname podns w
    match run.result with
    | .err e => { result := .err e, networkCalls := run.networkCalls, printed := run.printed }
    | .panic m => { result := .panic m, networkCalls := run.networkCalls, printed := run.printed }
    | .ok spt =>
      { result := .ok (NewBearerAuthorizer spt)
        networkCalls := run.networkCalls, printed := run.printed }

/-- oauth.go lines 100-119, `GetKeyvaultToken`: same as
`GetManagementToken` except that the resource is the key-vault endpoint
of the environment after the trailing-slash strip of lines 108-110 (which
panics on an empty endpoint string). -/
def GetKeyvaultToken (grantType : OAuthGrantType) (cloudName : String) (tenantId : String)
    (useIntegratedIdentity : Bool) (aADClientSecret : String) (aADClientID : String)
    (podname : String) (podns : String) (w : NMIWorld) : GoRun Authorizer :=
  match ParseAzureEnvironment cloudName with
  | (_, some e) => { result := .err e, networkCalls := 0, printed := [] }
  | (env, none) =>
    match goStripTrailingSlash env.KeyVaultEndpoint with
    | none =>
      { result := .panic "runtime error: index out of range", networkCalls := 0, printed := [] }
    | some kvEndPoint =>
      let run := GetServicePrincipalToken tenantId env kvEndPoint useIntegratedIdentity
        aADClientSecret aADClientID podname podns w
      match run.result with
      | .err e => { result := .err e, networkCalls := run.networkCalls, printed := run.printed }
      | .panic m => { result := .panic m, networkCalls := run.networkCalls, printed := run.printed }
      | .ok spt =>
        { result := .ok (NewBearerAuthorizer spt)
          networkCalls := run.networkCalls, printed := run.printed }

/-- Whether a cloud name matches one of the four keys of the vendored
environments table, case-insensitively — the notion of a "recognized"
name in `azure.EnvironmentFromName`. -/
def isKnownCloudName (name : String) : Bool :=
  goToUpper name == "AZURECHINACLOUD" || goToUpper name == "AZUREGERMANCLOUD" ||
  goToUpper name == "AZUREPUBLICCLOUD" || goToUpper name == "AZUREUSGOVERNMENTCLOUD"

/-- A concrete well-formed broker token used by witnesses. -/
def demoToken : Token :=
  { accessToken := "eyJ0.broker.token", refreshToken := "", expiresIn := "3600"
    expiresOn := "1540000000", notBefore := "1539996400", resource := "", tokenType := "Bearer" }

/-- A non-empty Go string has positive length (`len(s) > 0`). -/
theorem str_ne_empty_length_pos {s : String} (h : s ≠ "") : 0 < s.length := by
  cases s with
  | mk d =>
    cases d with
    | nil => exact absurd rfl h
    | cons c cs => simp [String.length]

/-- Environment resolution can only succeed with one of the four
environments of the fixed table (plus the public default for the empty
name, which is the same value as the table entry). -/
theorem parse_ok_env {cloudName : String} {env : Environment}
    (h : ParseAzureEnvironment cloudName = (env, none)) :
    env = PublicCloud ∨ env = ChinaCloud ∨ env = GermanCloud ∨ env = USGovernmentCloud := by
  unfold ParseAzureEnvironment EnvironmentFromName at h
  split at h
  · exact Or.inl (Prod.mk.injEq .. ▸ h).1.symm
  · simp only at h
    split at h
    · exact Or.inr (Or.inl ((Prod.mk.injEq ..).mp h).1.symm)
    · split at h
      · exact Or.inr (Or.inr (Or.inl ((Prod.mk.injEq ..).mp h).1.symm))
      · split at h
        · exact Or.inl ((Prod.mk.injEq ..).mp h).1.symm
        · split at h
          · exact Or.inr (Or.inr (Or.inr ((Prod.mk.injEq ..).mp h).1.symm))
          · exact absurd ((Prod.mk.injEq ..).mp h).2 (by simp)

/-- Every environment the resolver can return has a key-vault endpoint
whose trailing-slash strip is defined, and whose stripped value differs
from the resource-manager endpoint. -/
theorem resolved_env_endpoints {cloudName : String} {env : Environment}
    (h : ParseAzureEnvironment cloudName = (env, none)) :
    ∃ t, goStripTrailingSlash env.KeyVaultEndpoint = some t
      ∧ env.ResourceManagerEndpoint ≠ t := by
  rcases parse_ok_env h with h' | h' | h' | h' <;> subst h'
  · exact ⟨"https://vault.azure.net", by decide, by decide⟩
  · exact ⟨"https://vault.azure.cn", by decide, by decide⟩
  · exact ⟨"https://vault.microsoftazure.de", by decide, by decide⟩
  · exact ⟨"https://vault.usgovcloudapi.net", by decide, by decide⟩

/-- On the delegated path, a broker response with a status other than 200
yields the status-code error. -/
theorem spt_non200 (tenantId : String) (env : Environment) (resource : String)
    (secret clientID podname podns : String) (w : NMIWorld) (resp : HttpResponse)
    (hcfg : w.oauthConfigErr = none) (hhttp : w.httpResult = .ok resp)
    (hcode : resp.statusCode ≠ 200) :
    (GetServicePrincipalToken tenantId env resource true secret clientID podname podns w).result
      = .err (.nmiStatusError resp.statusCode) := by
  simp [GetServicePrincipalToken, hcfg, hhttp, hcode]

/-- On the static path with a non-empty secret, the result is the
client-credentials credential built from the given configuration. -/
theorem spt_static_ok (tenantId : String) (env : Environment) (resource : String)
    (secret clientID podname podns : String) (w : NMIWorld)
    (hcfg : w.oauthConfigErr = none) (hsec : secret ≠ "") :
    (GetServicePrincipalToken tenantId env resource false secret clientID podname podns w).result
      = .ok (.clientCredentials ⟨env.ActiveDirectoryEndpoint, tenantId⟩ clientID secret resource) := by
  simp [GetServicePrincipalToken, hcfg, str_ne_empty_length_pos hsec]

/-- No branch of `GetServicePrincipalToken` reaches a panic outcome. -/
theorem spt_no_panic (tenantId : String) (env : Environment) (resource : String)
    (uii : Bool) (secret clientID podname podns : String) (w : NMIWorld) :
    (GetServicePrincipalToken tenantId env resource uii secret clientID podname podns w).result.isPanic
      = false := by
  unfold GetServicePrincipalToken
  repeat' split
  all_goals simp only []
  all_goals first
    | rfl
    | (split <;> rfl)

/-- C1: on the static-credential path (useIntegratedIdentity false) with
an empty client secret, token acquisition fails with the
missing-credential error, whose message names the clientID, and zero
network calls are performed — provided the library construction of the
OAuth configuration (the only step before the check) succeeded. -/
theorem static_path_empty_secret_fails_missing_credential
    (tenantId : String) (env : Environment) (resource : String)
    (aADClientID podname podns : String) (w : NMIWorld)
    (hcfg : w.oauthConfigErr = none) :
    (GetServicePrincipalToken tenantId env resource false "" aADClientID podname podns w).result
        = .err (.noCredentials aADClientID)
      ∧ (GetServicePrincipalToken tenantId env resource false "" aADClientID podname podns
          w).networkCalls = 0
      ∧ GoErr.message (.noCredentials aADClientID)
          = "No credentials provided for AAD application " ++ aADClientID := by
  simp [GetServicePrincipalToken, hcfg, GoErr.message]

/-- C1 witness: concrete instance of the empty-secret static call. -/
theorem static_path_empty_secret_fails_missing_credential_witness :
    (GetServicePrincipalToken "tenant" PublicCloud "https://management.azure.com/" false ""
        "client-1" "pod" "ns" ⟨none, .error "unused"⟩).result = .err (.noCredentials "client-1")
      ∧ (GetServicePrincipalToken "tenant" PublicCloud "https://management.azure.com/" false ""
          "client-1" "pod" "ns" ⟨none, .error "unused"⟩).networkCalls = 0
      ∧ GoErr.message (.noCredentials "client-1")
          = "No credentials provided for AAD application " ++ "client-1" :=
  static_path_empty_secret_fails_missing_credential "tenant" PublicCloud
    "https://management.azure.com/" "client-1" "pod" "ns" ⟨none, .error "unused"⟩ rfl

/-- C2, behavior at the failing input: a 200 broker response whose decoded
body carries the ZERO token (empty access token) and client identifier
"abc" is ACCEPTED — the guard of oauth.go line 162 tests
`&token == nil || clientID == ""` and the first disjunct is always false,
so a credential is produced from the empty token instead of the
incomplete-response failure the claim (and the message of the error on
line 163) call for. -/
theorem nmi_200_empty_access_token_accepted :
    (GetServicePrincipalToken "tenant" PublicCloud "https://vault.azure.net" true "" "" "pod" "ns"
        { oauthConfigErr := none,
          httpResult := .ok
            { statusCode := 200,
              body := .ok { token := zeroToken, clientID := "abc" } } }).result
      = .ok (.manual ⟨"https://login.microsoftonline.com/", "tenant"⟩
          "abc" "https://vault.azure.net" zeroToken) := by decide

/-- C3: the empty cloud name resolves to the public cloud without error,
and every non-empty name outside the known table fails with the
unknown-environment error (carrying the upper-cased name). -/
theorem parseAzureEnvironment_empty_default_unknown_fails :
    ParseAzureEnvironment "" = (PublicCloud, none)
      ∧ ∀ name : String, name ≠ "" → isKnownCloudName name = false →
          ParseAzureEnvironment name
            = (zeroEnvironment, some (.unknownEnvironment (goToUpper name))) := by
  refine ⟨rfl, ?_⟩
  intro name h1 h2
  simp only [isKnownCloudName, Bool.or_eq_false_iff, beq_eq_false_iff_ne, ne_eq] at h2
  obtain ⟨⟨⟨k1, k2⟩, k3⟩, k4⟩ := h2
  simp [ParseAzureEnvironment, EnvironmentFromName, h1, k1, k2, k3, k4]

/-- C3 witness: resolution of the empty name and of "unknown-xyz". -/
theorem parseAzureEnvironment_empty_default_unknown_fails_witness :
    ParseAzureEnvironment "" = (PublicCloud, none)
      ∧ ParseAzureEnvironment "unknown-xyz"
          = (zeroEnvironment, some (.unknownEnvironment (goToUpper "unknown-xyz"))) :=
  ⟨parseAzureEnvironment_empty_default_unknown_fails.1,
   parseAzureEnvironment_empty_default_unknown_fails.2 "unknown-xyz" (by decide) (by decide)⟩

/-- C4 counterexample: the trailing-slash strip is NOT idempotent on
every input — on "//" one application gives "/", a second gives "", so
applying the strip twice differs from applying it once. -/
theorem stripTrailingSlash_double_slash_not_idempotent :
    goStripTrailingSlash "//" = some "/"
      ∧ (goStripTrailingSlash "//").bind goStripTrailingSlash = some ""
      ∧ some "/" ≠ (some "" : Option String) := by decide

/-- C4 as amended: the strip removes exactly one trailing separator, so it
is idempotent only away from the degenerate inputs — for every input that
is non-empty, is not "/", and does not end in "//", applying the strip
twice yields the same result as applying it once. -/
theorem stripTrailingSlash_idempotent_when_no_double_slash (s : String)
    (h0 : s ≠ "") (h1 : s ≠ "/")
    (h2 : s.data.reverse.head? = some '/' → s.data.reverse.tail.head? ≠ some '/') :
    (goStripTrailingSlash s).bind goStripTrailingSlash = goStripTrailingSlash s := by
  obtain ⟨l⟩ := s
  match hl : l.reverse with
  | [] =>
    exact absurd (congrArg String.mk (List.reverse_eq_nil_iff.mp hl)) h0
  | c :: rest =>
    by_cases hc : c = '/'
    · subst hc
      match hrest : rest with
      | [] =>
        have : l = ['/'] := by
          have := congrArg List.reverse hl
          simpa using this
        exact absurd (congrArg String.mk this) h1
      | c2 :: rest2 =>
        have hc2 : c2 ≠ '/' := by
          have h3 : l.reverse.tail.head? ≠ some '/' := h2 (by rw [hl]; rfl)
          rw [hl] at h3
          simpa using h3
        simp [goStripTrailingSlash, hl, hrest, List.reverse_reverse, hc2]
    · simp [goStripTrailingSlash, hl, hc]

/-- C4 witness: the strip is idempotent on the spec example endpoint. -/
theorem stripTrailingSlash_idempotent_when_no_double_slash_witness :
    (goStripTrailingSlash "https://vault.example.com/").bind goStripTrailingSlash
      = goStripTrailingSlash "https://vault.example.com/" :=
  stripTrailingSlash_idempotent_when_no_double_slash "https://vault.example.com/"
    (by decide) (by decide) (by decide)

/-- C5: when the broker responds with any status other than 200, the
delegated acquisition fails with the status-code error; both orchestrator
entry points return that exact same typed error (and hence a nil
authorizer — `GoOutcome.err` is the Go `return nil, err`). -/
theorem nmi_non200_propagates_status_error (g : OAuthGrantType) (cloudName tenantId : String)
    (secret clientID podname podns resource : String) (w : NMIWorld)
    (env : Environment) (resp : HttpResponse)
    (hparse : ParseAzureEnvironment cloudName = (env, none))
    (hcfg : w.oauthConfigErr = none)
    (hhttp : w.httpResult = .ok resp)
    (hcode : resp.statusCode ≠ 200) :
    (GetServicePrincipalToken tenantId env resource true secret clientID podname podns w).result
        = .err (.nmiStatusError resp.statusCode)
      ∧ (GetManagementToken g cloudName tenantId true secret clientID podname podns w).result
        = .err (.nmiStatusError resp.statusCode)
      ∧ (GetKeyvaultToken g cloudName tenantId true secret clientID podname podns w).result
        = .err (.nmiStatusError resp.statusCode) := by
  obtain ⟨t, hstrip, -⟩ := resolved_env_endpoints hparse
  refine ⟨spt_non200 _ _ _ _ _ _ _ _ _ hcfg hhttp hcode, ?_, ?_⟩
  · simp [GetManagementToken, hparse, spt_non200 _ _ _ _ _ _ _ _ _ hcfg hhttp hcode]
  · simp [GetKeyvaultToken, hparse, hstrip, spt_non200 _ _ _ _ _ _ _ _ _ hcfg hhttp hcode]

/-- C5 witness: a 404 broker response on the public cloud. -/
theorem nmi_non200_propagates_status_error_witness :
    (GetServicePrincipalToken "tenant" PublicCloud "https://management.azure.com/" true "" "cid"
        "pod" "ns" ⟨none, .ok ⟨404, .error "ignored"⟩⟩).result = .err (.nmiStatusError 404)
      ∧ (GetManagementToken .OAuthGrantTypeServicePrincipal "" "tenant" true "" "cid" "pod" "ns"
          ⟨none, .ok ⟨404, .error "ignored"⟩⟩).result = .err (.nmiStatusError 404)
      ∧ (GetKeyvaultToken .OAuthGrantTypeServicePrincipal "" "tenant" true "" "cid" "pod" "ns"
          ⟨none, .ok ⟨404, .error "ignored"⟩⟩).result = .err (.nmiStatusError 404) :=
  nmi_non200_propagates_status_error .OAuthGrantTypeServicePrincipal "" "tenant" "" "cid" "pod"
    "ns" "https://management.azure.com/" ⟨none, .ok ⟨404, .error "ignored"⟩⟩ PublicCloud
    ⟨404, .error "ignored"⟩ rfl rfl rfl (by decide)

/-- C6: a 200 broker response whose body decodes to a valid (non-empty)
access token and client identifier "abc" yields a credential built
directly from the broker token material (a manual token, not a
client-credentials exchange) whose client identifier is "abc". -/
theorem nmi_200_valid_body_returns_manual_credential (tenantId : String) (env : Environment)
    (resource : String) (secret clientID podname podns : String) (w : NMIWorld) (tok : Token)
    (hcfg : w.oauthConfigErr = none)
    (hhttp : w.httpResult = .ok ⟨200, .ok ⟨tok, "abc"⟩⟩)
    (htok : tok.accessToken ≠ "") :
    (GetServicePrincipalToken tenantId env resource true secret clientID podname podns w).result
        = .ok (.manual ⟨env.ActiveDirectoryEndpoint, tenantId⟩ "abc" resource tok)
      ∧ (ServicePrincipalToken.manual ⟨env.ActiveDirectoryEndpoint, tenantId⟩ "abc" resource
          tok).clientID = "abc" := by
  refine ⟨?_, rfl⟩
  simp [GetServicePrincipalToken, hcfg, hhttp]

/-- C6 witness: a concrete 200 broker response with client id "abc". -/
theorem nmi_200_valid_body_returns_manual_credential_witness :
    (GetServicePrincipalToken "tenant" PublicCloud "https://vault.azure.net" true "" "" "pod" "ns"
        ⟨none, .ok ⟨200, .ok ⟨demoToken, "abc"⟩⟩⟩).result
        = .ok (.manual ⟨PublicCloud.ActiveDirectoryEndpoint, "tenant"⟩ "abc"
            "https://vault.azure.net" demoToken)
      ∧ (ServicePrincipalToken.manual ⟨PublicCloud.ActiveDirectoryEndpoint, "tenant"⟩ "abc"
          "https://vault.azure.net" demoToken).clientID = "abc" :=
  nmi_200_valid_body_returns_manual_credential "tenant" PublicCloud "https://vault.azure.net"
    "" "" "pod" "ns" ⟨none, .ok ⟨200, .ok ⟨demoToken, "abc"⟩⟩⟩ demoToken rfl rfl (by decide)

/-- C7: with delegated identity off and a valid secret, the two entry
points build the same client-credentials credential — same OAuth
configuration, client id and secret — differing only in the resource URI:
the management endpoint of the resolved environment versus its stripped
key-vault endpoint, and those two resource URIs are distinct for every
resolvable environment. -/
theorem management_and_keyvault_differ_only_in_resource (g1 g2 : OAuthGrantType)
    (cloudName tenantId : String) (secret clientID podname podns : String)
    (w1 w2 : NMIWorld) (env : Environment)
    (hparse : ParseAzureEnvironment cloudName = (env, none))
    (hcfg1 : w1.oauthConfigErr = none) (hcfg2 : w2.oauthConfigErr = none)
    (hsec : secret ≠ "") :
    ∃ kvStripped,
      goStripTrailingSlash env.KeyVaultEndpoint = some kvStripped
        ∧ (GetManagementToken g1 cloudName tenantId false secret clientID podname podns w1).result
          = .ok (NewBearerAuthorizer (.clientCredentials ⟨env.ActiveDirectoryEndpoint, tenantId⟩
              clientID secret env.ResourceManagerEndpoint))
        ∧ (GetKeyvaultToken g2 cloudName tenantId false secret clientID podname podns w2).result
          = .ok (NewBearerAuthorizer (.clientCredentials ⟨env.ActiveDirectoryEndpoint, tenantId⟩
              clientID secret kvStripped))
        ∧ env.ResourceManagerEndpoint ≠ kvStripped := by
  obtain ⟨t, hstrip, hne⟩ := resolved_env_endpoints hparse
  refine ⟨t, hstrip, ?_, ?_, hne⟩
  · simp [GetManagementToken, hparse,
      spt_static_ok tenantId env env.ResourceManagerEndpoint secret clientID podname podns w1
        hcfg1 hsec, NewBearerAuthorizer]
  · simp [GetKeyvaultToken, hparse, hstrip,
      spt_static_ok tenantId env t secret clientID podname podns w2 hcfg2 hsec,
      NewBearerAuthorizer]

/-- C7 witness: both entry points on the public cloud with a static
secret; the two credentials differ exactly in the resource URI. -/
theorem management_and_keyvault_differ_only_in_resource_witness :
    ∃ kvStripped,
      goStripTrailingSlash PublicCloud.KeyVaultEndpoint = some kvStripped
        ∧ (GetManagementToken .OAuthGrantTypeServicePrincipal "" "tenant" false "s3cret" "cid"
            "pod" "ns" ⟨none, .error "unused"⟩).result
          = .ok (NewBearerAuthorizer (.clientCredentials
              ⟨PublicCloud.ActiveDirectoryEndpoint, "tenant"⟩ "cid" "s3cret"
              PublicCloud.ResourceManagerEndpoint))
        ∧ (GetKeyvaultToken .OAuthGrantTypeServicePrincipal "" "tenant" false "s3cret" "cid"
            "pod" "ns" ⟨none, .error "unused"⟩).result
          = .ok (NewBearerAuthorizer (.clientCredentials
              ⟨PublicCloud.ActiveDirectoryEndpoint, "tenant"⟩ "cid" "s3cret" kvStripped))
        ∧ PublicCloud.ResourceManagerEndpoint ≠ kvStripped :=
  management_and_keyvault_differ_only_in_resource .OAuthGrantTypeServicePrincipal
    .OAuthGrantTypeServicePrincipal "" "tenant" "s3cret" "cid" "pod" "ns"
    ⟨none, .error "unused"⟩ ⟨none, .error "unused"⟩ PublicCloud rfl rfl rfl (by decide)

/-- C8 counterexample: the endpoint-normalization expression is NOT total
— on the empty string the Go code indexes byte -1 and panics (modelled as
`none`), rather than returning any string. -/
theorem stripTrailingSlash_empty_panics : goStripTrailingSlash "" = none := rfl

/-- C8 as amended: no reachable execution panics — for every grant type,
cloud name, credentials, pod identity, external-world behavior,
environment and resource, the three operations return ordinary
(value, error) outcomes, never the panic outcome; the strip is protected
in context because every resolvable environment carries a non-empty
key-vault endpoint, even though the strip expression itself panics on the
empty string. -/
theorem operations_never_panic (g : OAuthGrantType) (cloudName tenantId : String) (uii : Bool)
    (secret clientID podname podns : String) (w : NMIWorld)
    (env : Environment) (resource : String) :
    (GetManagementToken g cloudName tenantId uii secret clientID podname podns w).result.isPanic
        = false
      ∧ (GetKeyvaultToken g cloudName tenantId uii secret clientID podname podns w).result.isPanic
        = false
      ∧ (GetServicePrincipalToken tenantId env resource uii secret clientID podname podns
          w).result.isPanic = false := by
  refine ⟨?_, ?_, spt_no_panic tenantId env resource uii secret clientID podname podns w⟩
  · unfold GetManagementToken
    split
    · rfl
    · rename_i env' heq
      simp only []
      have h := spt_no_panic tenantId env' env'.ResourceManagerEndpoint uii secret clientID
        podname podns w
      split
      · rfl
      · rename_i m heq2
        rw [heq2] at h
        exact absurd h (by simp [GoOutcome.isPanic])
      · rfl
  · unfold GetKeyvaultToken
    split
    · rfl
    · rename_i env' heq
      obtain ⟨t, hstrip, -⟩ := resolved_env_endpoints heq
      rw [hstrip]
      simp only []
      have h := spt_no_panic tenantId env' t uii secret clientID podname podns w
      split
      · rfl
      · rename_i m heq2
        rw [heq2] at h
        exact absurd h (by simp [GoOutcome.isPanic])
      · rfl

/-- C9, behavior of the code: on a successful delegated acquisition the
raw access token value IS written to standard output — the diagnostic
lines of oauth.go lines 156-157 (under the TODO "remove verbose logging")
contain the token material verbatim, contradicting the requirement that
token material never appear in externally visible diagnostic output. -/
theorem nmi_success_prints_raw_access_token :
    (GetServicePrincipalToken "tenant" PublicCloud "https://vault.azure.net" true "" "" "pod" "ns"
        { oauthConfigErr := none,
          httpResult := .ok
            { statusCode := 200,
              body := .ok
                { token := { zeroToken with accessToken := "SECRET-ACCESS-TOKEN" },
                  clientID := "abc" } } }).printed
      = ["azure: using managed identity extension to retrieve access token",
         "\n accesstoken: SECRET-ACCESS-TOKEN\n",
         "\n clientid: abc\n"] := by decide

/-- C10: the grant-type argument is dead input — `AuthGrantType` is the
service-principal constant, and for any two grant-type values with all
other arguments equal, `GetManagementToken` and `GetKeyvaultToken` return
identical results (authorizer, error, network calls and output). -/
theorem grantType_dead_input_authGrantType_constant :
    AuthGrantType = OAuthGrantType.OAuthGrantTypeServicePrincipal
      ∧ ∀ (g1 g2 : OAuthGrantType) (cloudName tenantId : String) (uii : Bool)
          (secret clientID podname podns : String) (w : NMIWorld),
          GetManagementToken g1 cloudName tenantId uii secret clientID podname podns w
            = GetManagementToken g2 cloudName tenantId uii secret clientID podname podns w
          ∧ GetKeyvaultToken g1 cloudName tenantId uii secret clientID podname podns w
            = GetKeyvaultToken g2 cloudName tenantId uii secret clientID podname podns w :=
  ⟨rfl, fun _ _ _ _ _ _ _ _ _ _ => ⟨rfl, rfl⟩⟩
